import Mathlib

/-!
Verification of the `storefront` repository: a shallow embedding of
`playground/views.py`, `playground/urls.py` and `tags/models.py`,
with theorems settling the frozen claims about them.
-/

namespace Storefront

/-! ## HTTP layer: `playground/views.py` and `playground/urls.py` -/

/-- An incoming HTTP request: method, path, query parameters and headers.
None of the repository's code inspects any of these fields. -/
structure HttpRequest where
  method : String
  path : String
  queryParams : List (String × String)
  headers : List (String × String)
deriving Repr, DecidableEq

/-- An HTTP response: a status code and a body. -/
structure HttpResponse where
  status : Nat
  body : String
deriving Repr, DecidableEq

/-- Modelled from the spec: the template `hello.html` is not included in the
repository. Per the spec it "must accept a context with key `name` (text)
and interpolate it somewhere in the output". Any other template name is not
present, so it renders nothing here. -/
def renderTemplate (tpl : String) (ctx : List (String × String)) : String :=
  if tpl = "hello.html" then
    "<html><body>Hello " ++ ((ctx.lookup "name").getD "") ++ "</body></html>"
  else ""

/-- `django.shortcuts.render`: build a `200 OK` response whose body is the
named template rendered with the given context. With a plain context
dictionary the rendered body does not depend on the request object. -/
def render (_req : HttpRequest) (tpl : String) (ctx : List (String × String)) :
    HttpResponse :=
  { status := 200, body := renderTemplate tpl ctx }

/-- `playground/views.py`, `say_hello`: the single view. Its one statement is
`return render(request, "hello.html", {"name": "Mostafa"})`; it raises no
errors of its own, so it is a total function into `HttpResponse`. -/
def say_hello (req : HttpRequest) : HttpResponse :=
  render req "hello.html" [("name", "Mostafa")]

/-- One entry of a URLConf: a path pattern and its handler. -/
structure UrlPattern where
  pattern : String
  handler : HttpRequest → HttpResponse

/-- `playground/urls.py`, `urlpatterns`: the URL configuration, an ordered
list holding the single entry `path("hello/", views.say_hello)`. -/
def urlpatterns : List UrlPattern :=
  [{ pattern := "hello/", handler := say_hello }]

/-- Django's URL resolver strips the leading slash from the request path
before matching it against the configured patterns (framework behaviour). -/
def stripLeadingSlash (p : String) : String :=
  match p.data with
  | '/' :: rest => String.mk rest
  | _ => p

/-- Django's URL resolver: scan `urlpatterns` in order for the first pattern
equal to the request path (with its leading slash stripped). The resolver
consults only the path, never the method, query parameters or headers. -/
def resolvePath (path : String) : Option (HttpRequest → HttpResponse) :=
  (urlpatterns.find? (fun u => u.pattern == stripLeadingSlash path)).map
    (fun u => u.handler)

/-- Dispatch a request: resolve its path and, when a route matches, apply the
matched handler; an unmatched path yields `none` (framework 404). -/
def handleRequest (req : HttpRequest) : Option HttpResponse :=
  (resolvePath req.path).map (fun h => h req)

/-- `body` contains the literal text `s`. -/
def bodyContains (resp : HttpResponse) (s : String) : Prop :=
  ∃ pre post, resp.body = pre ++ s ++ post

/-- The concrete request `GET /hello/` with no query parameters or headers. -/
def getHelloReq : HttpRequest :=
  { method := "GET", path := "/hello/", queryParams := [], headers := [] }

/-- The concrete request `POST /hello/` with no query parameters or headers. -/
def postHelloReq : HttpRequest :=
  { method := "POST", path := "/hello/", queryParams := [], headers := [] }

/-! ## Data model: `tags/models.py` -/

/-- `tags/models.py`, `class Tag`: the column `label =
models.CharField(max_length=255)` plus the implicit auto-assigned row id. -/
structure Tag where
  id : Nat
  label : String
deriving Repr, DecidableEq

/-- A row of the externally-owned content-type table
(`django.contrib.contenttypes.models.ContentType`): an id naming a record
table of the application. -/
structure ContentType where
  id : Nat
  model : String
deriving Repr, DecidableEq

/-- `tags/models.py`, `class TaggedItem`: columns `tag` (foreign key to
`Tag`, `on_delete=models.CASCADE`), `content_type` (foreign key to
`ContentType`, `on_delete=models.CASCADE`) and `object_id`
(`models.PositiveIntegerField()`), plus the implicit auto-assigned row id.
`object_id` is carried as an `Int` so that the column's non-negativity
constraint is a provable property of stored rows, not a typing assumption.
The `content_object = GenericForeignKey()` attribute adds no column and no
database constraint. -/
structure TaggedItem where
  id : Nat
  tag_id : Nat
  content_type_id : Nat
  object_id : Int
deriving Repr, DecidableEq

/-- A database state: the `Tag`, `ContentType` and `TaggedItem` tables, plus
an abstract view of every other application table as the set of
`(content-type id, row id)` pairs of its existing rows — used only to state
whether a generic reference resolves. -/
structure DBState where
  tags : List Tag
  contentTypes : List ContentType
  taggedItems : List TaggedItem
  rows : List (Nat × Int)
deriving Repr, DecidableEq

/-- Some stored `Tag` has the given id. -/
def tagExists (db : DBState) (tagId : Nat) : Bool :=
  db.tags.any (fun t => t.id == tagId)

/-- Some stored `ContentType` has the given id. -/
def contentTypeExists (db : DBState) (ctId : Nat) : Bool :=
  db.contentTypes.any (fun c => c.id == ctId)

/-- The generic reference `(content_type, object_id)` of `ti` resolves to an
existing row in the referenced table. -/
def resolvesToRow (db : DBState) (ti : TaggedItem) : Prop :=
  (ti.content_type_id, ti.object_id) ∈ db.rows

instance (db : DBState) (ti : TaggedItem) : Decidable (resolvesToRow db ti) :=
  inferInstanceAs (Decidable ((ti.content_type_id, ti.object_id) ∈ db.rows))

/-- Store a `Tag`. The one declared column constraint is `max_length=255` on
`label`: the database rejects a longer label. -/
def insertTag (db : DBState) (t : Tag) : Option DBState :=
  if t.label.length ≤ 255 then some { db with tags := t :: db.tags } else none

/-- Store a `TaggedItem`. The declared constraints are that `object_id` is a
`PositiveIntegerField` (non-negative) and that the `tag` and `content_type`
foreign keys reference existing rows. The `GenericForeignKey` declares no
constraint, so nothing here — and no logic anywhere in the repository —
checks that `(content_type, object_id)` resolves to an existing row. -/
def insertTaggedItem (db : DBState) (ti : TaggedItem) : Option DBState :=
  if 0 ≤ ti.object_id ∧ tagExists db ti.tag_id = true ∧
      contentTypeExists db ti.content_type_id = true then
    some { db with taggedItems := ti :: db.taggedItems }
  else none

/-- Delete the `Tag` with the given id. Per `on_delete=models.CASCADE`
declared on `TaggedItem.tag`, every `TaggedItem` referencing it is deleted
with it. -/
def deleteTag (db : DBState) (tagId : Nat) : DBState :=
  { db with
    tags := db.tags.filter (fun t => t.id != tagId),
    taggedItems := db.taggedItems.filter (fun ti => ti.tag_id != tagId) }

/-- Delete the `ContentType` with the given id. Per `on_delete=models.CASCADE`
declared on `TaggedItem.content_type`, every `TaggedItem` referencing it is
deleted with it. -/
def deleteContentType (db : DBState) (ctId : Nat) : DBState :=
  { db with
    contentTypes := db.contentTypes.filter (fun c => c.id != ctId),
    taggedItems := db.taggedItems.filter (fun ti => ti.content_type_id != ctId) }

/-- A sample database: one tag, one content type, one tagged item whose
generic reference resolves. -/
def sampleDB : DBState :=
  { tags := [{ id := 1, label := "sports" }],
    contentTypes := [{ id := 1, model := "product" }],
    taggedItems := [{ id := 1, tag_id := 1, content_type_id := 1, object_id := 5 }],
    rows := [(1, 5)] }

/-- A database holding a tag and a content type but no rows at all in the
referenced tables, so any generic reference into it dangles. -/
def danglingDB : DBState :=
  { tags := [{ id := 1, label := "sports" }],
    contentTypes := [{ id := 1, model := "product" }],
    taggedItems := [],
    rows := [] }

/-- A tagged item whose generic reference `(1, 7)` matches no row of
`danglingDB`. -/
def danglingItem : TaggedItem :=
  { id := 1, tag_id := 1, content_type_id := 1, object_id := 7 }

end Storefront

namespace Storefront

/-- C1: for every GET request whose path matches the configured route
`/hello/`, the application returns a successful (2xx) response whose body
contains the literal text "Mostafa". -/
theorem get_hello_returns_mostafa (req : HttpRequest)
    (_hm : req.method = "GET")
    (hp : stripLeadingSlash req.path = "hello/") :
    ∃ resp, handleRequest req = some resp ∧
      200 ≤ resp.status ∧ resp.status < 300 ∧ bodyContains resp "Mostafa" := by
  refine ⟨say_hello req, ?_, by simp [say_hello, render], by simp [say_hello, render], ?_⟩
  · simp [handleRequest, resolvePath, urlpatterns, hp]
  · exact ⟨"<html><body>Hello ", "</body></html>", rfl⟩

/-- C1 witness: the concrete request `GET /hello/` is handled successfully
and its body contains "Mostafa". -/
theorem get_hello_returns_mostafa_witness :
    ∃ resp, handleRequest getHelloReq = some resp ∧
      200 ≤ resp.status ∧ resp.status < 300 ∧ bodyContains resp "Mostafa" :=
  get_hello_returns_mostafa getHelloReq rfl (by decide)

/-- Resolving any path against the URL configuration yields either no
handler or the single configured handler `say_hello`. -/
theorem resolvePath_eq (p : String) :
    resolvePath p = none ∨ resolvePath p = some say_hello := by
  unfold resolvePath urlpatterns
  by_cases h : ("hello/" == stripLeadingSlash p) = true
  · right; simp [List.find?, h]
  · left; simp [List.find?, h]

/-- C2 counterexample: the route is not exposed only for GET. The concrete
request `POST /hello/` is matched by the route and handled by `say_hello`,
because neither the URL configuration nor the view restricts the method. -/
theorem route_not_get_only_counterexample :
    postHelloReq.method ≠ "GET" ∧
      handleRequest postHelloReq = some (say_hello postHelloReq) := by
  refine ⟨by decide, ?_⟩
  simp [handleRequest, resolvePath, urlpatterns, postHelloReq, stripLeadingSlash]

/-- C2 amended: the URL configuration is an ordered list of exactly one
(path-pattern, handler) pair, mapping "hello/" to `say_hello`, and the route
has no method, query-parameter, header, or status-code logic of its own:
dispatch depends on the request only through its path (so every HTTP method,
not only GET, reaches the handler). -/
theorem urlconf_single_route_method_agnostic :
    (∃ u, urlpatterns = [u] ∧ u.pattern = "hello/" ∧ u.handler = say_hello) ∧
      ∀ r₁ r₂ : HttpRequest, r₁.path = r₂.path →
        handleRequest r₁ = handleRequest r₂ := by
  refine ⟨⟨{ pattern := "hello/", handler := say_hello }, rfl, rfl, rfl⟩, ?_⟩
  intro r₁ r₂ hp
  unfold handleRequest
  rw [hp]
  rcases resolvePath_eq r₂.path with h | h <;> rw [h] <;> rfl

/-- C2 amended witness: `GET /hello/` and `POST /hello/` share a path and
are dispatched to the same response. -/
theorem urlconf_single_route_method_agnostic_witness :
    handleRequest getHelloReq = handleRequest postHelloReq :=
  urlconf_single_route_method_agnostic.2 getHelloReq postHelloReq rfl

/-- C3: for every request, `say_hello` renders the template named
"hello.html" and the context it passes binds the key "name" to a text
value (the string "Mostafa"). -/
theorem say_hello_renders_hello_template (req : HttpRequest) :
    ∃ ctx, say_hello req = render req "hello.html" ctx ∧
      ctx.lookup "name" = some "Mostafa" :=
  ⟨[("name", "Mostafa")], rfl, rfl⟩

/-- C4: `say_hello` is pure and deterministic, and its output is independent
of every field of the incoming request: any two requests (equal or not)
produce equal responses, so the template name and context it supplies cannot
depend on the request. -/
theorem say_hello_request_independent (r₁ r₂ : HttpRequest) :
    say_hello r₁ = say_hello r₂ :=
  rfl

/-- C7: `say_hello` has no branching and no error handling: on every request
it takes the single unconditional path, returning the rendered template with
status 200, and raises no error of its own (it is a total function into
`HttpResponse`, not an `Option` or `Except`). -/
theorem say_hello_unconditional (req : HttpRequest) :
    say_hello req = render req "hello.html" [("name", "Mostafa")] ∧
      (say_hello req).status = 200 :=
  ⟨rfl, rfl⟩

/-- C5: for every database state, deleting a `Tag` removes it, removes every
dependent `TaggedItem` (one whose `tag` field references it), and leaves no
stored `TaggedItem` referencing the deleted tag — the cascade policy declared
on `TaggedItem.tag`. -/
theorem deleteTag_cascades (db : DBState) (tagId : Nat) :
    (∀ t ∈ (deleteTag db tagId).tags, t.id ≠ tagId) ∧
    (∀ ti ∈ db.taggedItems, ti.tag_id = tagId →
      ti ∉ (deleteTag db tagId).taggedItems) ∧
    (∀ ti ∈ (deleteTag db tagId).taggedItems, ti.tag_id ≠ tagId) := by
  refine ⟨?_, ?_, ?_⟩
  · intro t ht
    simpa using (List.mem_filter.mp ht).2
  · intro ti _ htag hcontra
    have h := (List.mem_filter.mp hcontra).2
    simp [htag] at h
  · intro ti hti
    simpa using (List.mem_filter.mp hti).2

/-- C5 witness: in the sample database the tagged item referencing tag 1 is
stored before `deleteTag` and gone after it. -/
theorem deleteTag_cascades_witness :
    TaggedItem.mk 1 1 1 5 ∉ (deleteTag sampleDB 1).taggedItems :=
  (deleteTag_cascades sampleDB 1).2.1 (TaggedItem.mk 1 1 1 5) (by decide) rfl

/-- C6: nothing validates the generic reference: storing a `TaggedItem`
succeeds whether or not its `(content_type, object_id)` pair resolves to an
existing row, so the dangling state is representable and remains dangling in
the stored state. -/
theorem taggedItem_dangling_representable (db : DBState) (ti : TaggedItem)
    (hoid : 0 ≤ ti.object_id)
    (htag : tagExists db ti.tag_id = true)
    (hct : contentTypeExists db ti.content_type_id = true) :
    ∃ db', insertTaggedItem db ti = some db' ∧ ti ∈ db'.taggedItems ∧
      (¬ resolvesToRow db ti → ¬ resolvesToRow db' ti) := by
  refine ⟨{ db with taggedItems := ti :: db.taggedItems }, ?_, ?_, ?_⟩
  · simp [insertTaggedItem, hoid, htag, hct]
  · exact List.mem_cons_self ti db.taggedItems
  · intro h hr
    exact h hr

/-- C6 witness: the concrete `danglingItem` does not resolve in `danglingDB`,
yet storing it succeeds and it is stored. -/
theorem taggedItem_dangling_representable_witness :
    ¬ resolvesToRow danglingDB danglingItem ∧
      ∃ db', insertTaggedItem danglingDB danglingItem = some db' ∧
        danglingItem ∈ db'.taggedItems := by
  refine ⟨by decide, ?_⟩
  obtain ⟨db', h1, h2, _⟩ :=
    taggedItem_dangling_representable danglingDB danglingItem
      (by decide) (by decide) (by decide)
  exact ⟨db', h1, h2⟩

/-- C8: the `max_length=255` constraint declared on `Tag.label` is an
invariant of stored tags: if every stored tag's label has length at most 255
and a store of a further tag succeeds, every stored tag's label still has
length at most 255. -/
theorem tag_label_max_255 (db : DBState) (t : Tag) (db' : DBState)
    (hinv : ∀ x ∈ db.tags, x.label.length ≤ 255)
    (hins : insertTag db t = some db') :
    ∀ x ∈ db'.tags, x.label.length ≤ 255 := by
  unfold insertTag at hins
  split at hins
  case isTrue h =>
    cases hins
    intro x hx
    rcases List.mem_cons.mp hx with rfl | hmem
    · exact h
    · exact hinv x hmem
  case isFalse h =>
    cases hins

/-- C8 witness: after storing the tag "sports" into the empty database, that
stored tag's label is within 255 characters. -/
theorem tag_label_max_255_witness :
    (Tag.mk 1 "sports").label.length ≤ 255 :=
  tag_label_max_255 (DBState.mk [] [] [] []) (Tag.mk 1 "sports")
    (DBState.mk [Tag.mk 1 "sports"] [] [] []) (by simp) (by decide)
    (Tag.mk 1 "sports") (by decide)

/-- C9: the `PositiveIntegerField` on `TaggedItem.object_id` is an invariant
of stored tagged items: from a state where every stored item's `object_id`
is non-negative, no operation on the `TaggedItem` table — a successful
store, a `Tag` cascade delete, or a `ContentType` cascade delete — produces
a stored item with a negative `object_id`. -/
theorem object_id_nonneg_invariant (db : DBState)
    (hinv : ∀ x ∈ db.taggedItems, 0 ≤ x.object_id) :
    (∀ ti db', insertTaggedItem db ti = some db' →
      ∀ x ∈ db'.taggedItems, 0 ≤ x.object_id) ∧
    (∀ tagId, ∀ x ∈ (deleteTag db tagId).taggedItems, 0 ≤ x.object_id) ∧
    (∀ ctId, ∀ x ∈ (deleteContentType db ctId).taggedItems,
      0 ≤ x.object_id) := by
  refine ⟨?_, ?_, ?_⟩
  · intro ti db' hins x hx
    unfold insertTaggedItem at hins
    split at hins
    case isTrue h =>
      cases hins
      rcases List.mem_cons.mp hx with rfl | hmem
      · exact h.1
      · exact hinv x hmem
    case isFalse h =>
      cases hins
  · intro tagId x hx
    exact hinv x (List.mem_of_mem_filter hx)
  · intro ctId x hx
    exact hinv x (List.mem_of_mem_filter hx)

/-- C9 witness: after deleting tag 2 from the sample database, the stored
tagged item still has a non-negative `object_id`. -/
theorem object_id_nonneg_invariant_witness :
    0 ≤ (TaggedItem.mk 1 1 1 5).object_id :=
  (object_id_nonneg_invariant sampleDB (by decide)).2.1 2
    (TaggedItem.mk 1 1 1 5) (by decide)

/-- C10: for every database state, deleting a `ContentType` removes it and
cascades to every `TaggedItem` whose `content_type` field references it —
the second cascade edge, declared by `on_delete=CASCADE` on
`TaggedItem.content_type`. -/
theorem deleteContentType_cascades (db : DBState) (ctId : Nat) :
    (∀ c ∈ (deleteContentType db ctId).contentTypes, c.id ≠ ctId) ∧
    (∀ ti ∈ db.taggedItems, ti.content_type_id = ctId →
      ti ∉ (deleteContentType db ctId).taggedItems) ∧
    (∀ ti ∈ (deleteContentType db ctId).taggedItems,
      ti.content_type_id ≠ ctId) := by
  refine ⟨?_, ?_, ?_⟩
  · intro c hc
    simpa using (List.mem_filter.mp hc).2
  · intro ti _ hct hcontra
    have h := (List.mem_filter.mp hcontra).2
    simp [hct] at h
  · intro ti hti
    simpa using (List.mem_filter.mp hti).2

/-- C10 witness: in the sample database the tagged item referencing content
type 1 is gone after `deleteContentType`. -/
theorem deleteContentType_cascades_witness :
    TaggedItem.mk 1 1 1 5 ∉ (deleteContentType sampleDB 1).taggedItems :=
  (deleteContentType_cascades sampleDB 1).2.1 (TaggedItem.mk 1 1 1 5)
    (by decide) rfl

end Storefront
